import Mathlib

/-!
Verification of the DHCPv6 client state machine from
`IPConfiguration.bproj/DHCPv6Client.c`.

Shallow embedding conventions:
- `CFAbsoluteTime` / `CFTimeInterval` (C doubles) are modelled as `ℚ`.
- `uint32_t` fields are modelled as `Nat` (well-formedness bounds `< 2^32`
  appear as hypotheses where a proof needs them).
- The C cast `(uint32_t)x` of a non-negative double is a floor; it is
  modelled by `castU32` below.
- The option-list codec (`DHCPv6Options.c`, not part of this repository
  snapshot) is abstracted: a received packet is a `Msg` record carrying the
  already-decoded fields the client code reads through the codec accessors
  (`DHCPv6OptionListGetOptionDataAndLength`, `DHCPv6OptionListGetStatusCode`,
  ...).  A `none` in `Msg.topStatus` or `IA_NA.status` models
  `DHCPv6OptionListGetStatusCode` returning false (malformed STATUS_CODE
  option); an absent STATUS_CODE option decodes as `some .Success`.
- External collaborators (clock, randomness, SSID, kernel address table,
  sockets) are supplied through an `Env` record; each random draw the C code
  makes is a separate `Env` field.
- `lease_p->t1 = preferred_lifetime * 0.5` and `* 0.8` compute in IEEE
  double and truncate to `uint32_t`; for every `preferred_lifetime < 2^32`
  the results equal `p / 2` and `4 * p / 5` in `Nat` (the relative error of
  `p * fl(0.8)` is below half an ulp, so the product rounds to the exact
  value when `5 ∣ p`, and the fractional part of `0.8 * p` is at least `0.2`
  otherwise), which is how they are modelled here.
-/

namespace DHCPv6

/-- DHCP_INFINITE_LEASE, the 0xFFFFFFFF sentinel meaning "never expires". -/
def INFINITE_LEASE : Nat := 4294967295

/-- kDHCPv6MessageSOLICIT. -/
def msgSOLICIT : Nat := 1

/-- kDHCPv6MessageADVERTISE. -/
def msgADVERTISE : Nat := 2

/-- kDHCPv6MessageREQUEST. -/
def msgREQUEST : Nat := 3

/-- kDHCPv6MessageREPLY. -/
def msgREPLY : Nat := 7

/-- kDHCPv6OptionPREFERENCEMinValue (default preference when absent). -/
def prefMinValue : Nat := 0

/-- kDHCPv6OptionPREFERENCEMaxValue. -/
def prefMaxValue : Nat := 255

/-- DHCPv6_REQ_MAX_RC (spec section 6: REQ = 1/30/10; DHCPv6.h is not in
the snapshot, the value is taken from the spec's wire-constants table). -/
def DHCPv6_REQ_MAX_RC : Nat := 10

/-- DHCPv6_DEC_MAX_RC (spec section 6: DEC = 1/5). -/
def DHCPv6_DEC_MAX_RC : Nat := 5

/-- DHCPv6_REQ_TIMEOUT. -/
def DHCPv6_REQ_TIMEOUT : ℚ := 1

/-- DHCPv6_REQ_MAX_RT. -/
def DHCPv6_REQ_MAX_RT : ℚ := 30

/-- DHCPv6_REN_TIMEOUT. -/
def DHCPv6_REN_TIMEOUT : ℚ := 10

/-- DHCPv6_REN_MAX_RT. -/
def DHCPv6_REN_MAX_RT : ℚ := 600

/-- DHCPv6_REB_TIMEOUT. -/
def DHCPv6_REB_TIMEOUT : ℚ := 10

/-- DHCPv6_REB_MAX_RT. -/
def DHCPv6_REB_MAX_RT : ℚ := 600

/-- DHCPv6_DEC_TIMEOUT. -/
def DHCPv6_DEC_TIMEOUT : ℚ := 1

/-- DHCPv6_INF_TIMEOUT. -/
def DHCPv6_INF_TIMEOUT : ℚ := 1

/-- DHCPv6_INF_MAX_RT. -/
def DHCPv6_INF_MAX_RT : ℚ := 120

/-- The C cast `(uint32_t)x` applied to a non-negative double: truncation
toward zero, i.e. the floor.  (For negative arguments the C conversion is
undefined; the model clamps to 0.  Every use in the source is guarded so
that the argument is non-negative.) -/
def castU32 (q : ℚ) : Nat := (q.num / (q.den : Int)).toNat

/-- DHCPv6ClientState (the twelve-state enum). -/
inductive ClientState
  | Inactive
  | Solicit
  | Request
  | Bound
  | Renew
  | Rebind
  | Confirm
  | Release
  | Unbound
  | Decline
  | Inform
  | InformComplete
deriving DecidableEq

/-- DHCPv6ClientMode. -/
inductive ClientMode
  | Idle
  | Stateless
  | Stateful
deriving DecidableEq

/-- DHCPv6StatusCode values read by the client. -/
inductive StatusCode
  | Success
  | UnspecFail
  | NoAddrsAvail
  | NoBinding
  | NotOnLink
  | UseMulticast
deriving DecidableEq

/-- S_dhcp_state_is_bound_renew_or_rebind. -/
def S_dhcp_state_is_bound_renew_or_rebind : ClientState → Bool
  | .Bound => true
  | .Renew => true
  | .Rebind => true
  | _ => false

/-- A SERVERID option as the client sees it: present bytes together with
the verdict of `DHCPDUIDIsValid` on them. -/
structure ServerId where
  valid : Bool
deriving DecidableEq

/-- A PREFERENCE option: its decoded value and whether its length reaches
`DHCPv6OptionPREFERENCE_MIN_LENGTH`. -/
structure PrefOpt where
  longEnough : Bool
  value : Nat
deriving DecidableEq

/-- One IAADDR option nested in an IA_NA: `wellFormed` models
`option_len ≥ DHCPv6OptionIAADDR_MIN_LENGTH`. -/
structure IAADDR where
  wellFormed : Bool
  address : Nat
  preferredLifetime : Nat
  validLifetime : Nat
deriving DecidableEq

/-- An IA_NA option: `longEnough` models
`option_len > DHCPv6OptionIA_NA_MIN_LENGTH`; `nestedParse` models
`DHCPv6OptionListCreate` succeeding on the nested options; `status` is the
result of `DHCPv6OptionListGetStatusCode` on the nested options (`none` =
malformed STATUS_CODE data, absent option decodes as `some .Success`). -/
structure IA_NA where
  longEnough : Bool
  t1 : Nat
  t2 : Nat
  nestedParse : Bool
  status : Option StatusCode
  iaaddrs : List IAADDR
deriving DecidableEq

/-- A received packet together with its decoded option list. -/
structure Msg where
  msgType : Nat
  transactionId : Nat
  clientId : Option (List Nat)
  serverId : Option ServerId
  topStatus : Option StatusCode
  preference : Option PrefOpt
  ia_na : Option IA_NA
deriving DecidableEq

/-- lease_info_t. -/
structure Lease where
  start : ℚ
  t1 : Nat
  t2 : Nat
  validLifetime : Nat
  preferredLifetime : Nat
  valid : Bool
  ssid : Option Nat
deriving DecidableEq

/-- The all-zero lease produced by `bzero` in DHCPv6ClientClearLease. -/
def Lease.zero : Lease :=
  { start := 0, t1 := 0, t2 := 0, validLifetime := 0,
    preferredLifetime := 0, valid := false, ssid := none }

/-- struct DHCPv6Client (the fields the claims touch).  `ourIP` models
`our_ip` with 0 as the unspecified address; `saved` models the saved
packet/option list (`none` = `pkt == NULL`, `pkt_len == 0`); `timer` holds
the absolute fire time of the pending timer callout (`none` = cancelled);
`iaBinding` models the `ia_na`/`ia_addr` pointers into the saved packet. -/
structure Client where
  cstate : ClientState
  mode : ClientMode
  transactionId : Nat
  tryCount : Nat
  startTime : ℚ
  retransmitTime : ℚ
  saved : Option Msg
  savedVerified : Bool
  savedServerId : Option ServerId
  iaBinding : Option (IA_NA × IAADDR)
  lease : Lease
  ourIP : Nat
  ourPrefixLength : Nat
  duid : List Nat
  privateAddress : Bool
  renewRebindTime : ℚ
  timer : Option ℚ
  receiveEnabled : Bool
deriving DecidableEq

/-- Wake-event hint (`link_event->info`). -/
inductive WakeInfo
  | NetworkChanged
  | BSSIDChanged
  | NoChange
deriving DecidableEq

/-- One entry of the kernel's IPv6 address list (`inet6_addrinfo_t`). -/
structure AddrEntry where
  addr : Nat
  duplicated : Bool
  tentative : Bool
deriving DecidableEq

/-- External collaborators consulted during one event: the clock, the
random transaction ids and jitters drawn, the interface and service state,
and the kernel's answers. -/
structure Env where
  now : ℚ
  newTid : Nat
  newTid2 : Nat
  u1 : ℚ
  u2 : ℚ
  rand0 : ℚ
  ssid : Option Nat
  wireless : Bool
  cellular : Bool
  linkValid : Bool
  linkActive : Bool
  wakeOnSameNetwork : Bool
  wakeInfo : WakeInfo
  prefixLength : Nat
  socketOK : Bool
  addOK : Bool
  addrList : List AddrEntry
  wakeSkew : ℚ
deriving DecidableEq

/-- find the first ia_addr with non-zero lifetime (the scan loop of
get_ia_na_addr_code, lines 470-507): a missing or short IAADDR ends the
scan with no result, a zero valid_lifetime is skipped, preferred above
valid ends the scan with no result, otherwise the entry is returned. -/
def findUsableIAADDR : List IAADDR → Option IAADDR
  | [] => none
  | a :: rest =>
    if a.wellFormed = false then none
    else if a.validLifetime = 0 then findUsableIAADDR rest
    else if a.preferredLifetime > a.validLifetime then none
    else some a

/-- get_ia_na_addr_code: returns the IA_NA together with the chosen IAADDR
(`none` when the IA_NA is to be ignored) and the IA_NA-level status code
(`Success` until the nested STATUS_CODE has been decoded). -/
def get_ia_na_addr_code (m : Msg) : Option (IA_NA × IAADDR) × StatusCode :=
  match m.ia_na with
  | none => (none, .Success)
  | some ia =>
    if ia.longEnough = false then (none, .Success)
    else if ia.t1 ≠ 0 ∧ ia.t2 ≠ 0 ∧ ia.t1 > ia.t2 then (none, .Success)
    else if ia.nestedParse = false then (none, .Success)
    else
      match ia.status with
      | none => (none, .Success)
      | some code =>
        match findUsableIAADDR ia.iaaddrs with
        | none => (none, code)
        | some a => (some (ia, a), code)

/-- get_ia_na_addr (the wrapper that drops the status code). -/
def get_ia_na_addr (m : Msg) : Option (IA_NA × IAADDR) :=
  (get_ia_na_addr_code m).1

/-- get_preference_value_from_options: the PREFERENCE value, defaulting to
kDHCPv6OptionPREFERENCEMinValue (0) when the option is absent or short. -/
def get_preference_value_from_options (m : Msg) : Nat :=
  match m.preference with
  | some p => if p.longEnough then p.value else prefMinValue
  | none => prefMinValue

/-- S_duid_matches: the CLIENTID option must be present and byte-for-byte
equal to our DUID. -/
def S_duid_matches (c : Client) (m : Msg) : Bool :=
  m.clientId = some c.duid

/-- DHCPv6InitialTimeout: IRT + rand*IRT with rand drawn from
U(-0.1, 0.1). -/
def DHCPv6InitialTimeout (IRT u : ℚ) : ℚ :=
  IRT + u * IRT

/-- DHCPv6SubsequentTimeout: RT = 2*RTprev + rand*RTprev, clamped to
MRT + rand'*MRT when MRT is nonzero and exceeded (a fresh draw). -/
def DHCPv6SubsequentTimeout (RTprev MRT u1 u2 : ℚ) : ℚ :=
  let RT := 2 * RTprev + u1 * RTprev
  if MRT ≠ 0 ∧ RT > MRT then MRT + u2 * MRT else RT

/-- DHCPv6ClientNextRetransmit: bump `try`, compute the next interval. -/
def DHCPv6ClientNextRetransmit (c : Client) (IRT MRT u1 u2 : ℚ) :
    Client × ℚ :=
  let c := { c with tryCount := c.tryCount + 1 }
  let rt :=
    if c.tryCount = 1 then DHCPv6InitialTimeout IRT u1
    else DHCPv6SubsequentTimeout c.retransmitTime MRT u1 u2
  ({ c with retransmitTime := rt }, rt)

/-- DHCPv6ClientSetSSID (retain new, release old). -/
def setSSID (c : Client) (ssid : Option Nat) : Client :=
  { c with lease := { c.lease with ssid := ssid } }

/-- DHCPv6ClientClearLease. -/
def clearLease (c : Client) : Client :=
  { c with lease := Lease.zero }

/-- DHCPv6ClientClearPacket. -/
def clearPacket (c : Client) : Client :=
  let c := clearLease c
  { c with saved := none, savedServerId := none, iaBinding := none,
           savedVerified := false }

/-- DHCPv6ClientCancelPendingEvents. -/
def cancelPendingEvents (c : Client) : Client :=
  { c with receiveEnabled := false, timer := none }

/-- DHCPv6ClientRemoveAddress (kernel errors are logged and ignored). -/
def removeAddress (c : Client) : Client :=
  if c.ourIP = 0 then c
  else { c with ourIP := 0, ourPrefixLength := 0 }

/-- DHCPv6ClientInactive (note: it does not change `cstate`). -/
def clientInactive (c : Client) : Client :=
  let c := cancelPendingEvents c
  let c := clearPacket c
  removeAddress c

/-- DHCPv6ClientLeaseStillValid: returns the possibly-updated client and
the verdict; an invalid wall clock (now before start) or expiry clears the
saved packet and invalidates the lease. -/
def DHCPv6ClientLeaseStillValid (c : Client) (now : ℚ) : Client × Bool :=
  if c.lease.valid = false then (c, false)
  else if c.lease.validLifetime = INFINITE_LEASE then (c, true)
  else if now < c.lease.start then
    (clearPacket c, false)
  else if (c.lease.validLifetime : ℚ) ≤ now - c.lease.start then
    (clearPacket c, false)
  else (c, true)

/-- DHCPv6ClientLeaseOnSameNetwork: wired is always same-network; wireless
compares the current SSID with the lease's SSID, and a missing SSID on
either side means different. -/
def DHCPv6ClientLeaseOnSameNetwork (c : Client) (env : Env) : Bool :=
  if env.wireless = false then true
  else
    match env.ssid, c.lease.ssid with
    | some s, some l => s = l
    | _, _ => false

/-- S_time_in_future: the_time is at least time_interval past
current_time. -/
def S_time_in_future (current_time the_time time_interval : ℚ) : Bool :=
  current_time < the_time ∧ time_interval ≤ the_time - current_time

/-- The lease-time normalization performed by DHCPv6ClientSavePacket
(lines 959-992) on the received T1, T2, preferred and valid lifetimes,
returning the stored (t1, t2, preferred, valid).  The double expressions
`preferred * 0.5` and `preferred * 0.8` truncate to `p / 2` and
`4 * p / 5` (see the header comment). -/
def DHCPv6ClientSavePacketLease (t1 t2 preferred valid : Nat) :
    Nat × Nat × Nat × Nat :=
  let p := if preferred = 0 then valid else preferred
  let step :=
    if t1 = 0 ∨ t2 = 0 then
      if p = INFINITE_LEASE then (0, 0, p, valid)
      else (p / 2, 4 * p / 5, p, valid)
    else if t1 = INFINITE_LEASE ∨ t2 = INFINITE_LEASE then
      (0, 0, INFINITE_LEASE, INFINITE_LEASE)
    else (t1, t2, p, valid)
  match step with
  | (a, b, pp, vv) =>
    if vv = INFINITE_LEASE then (0, 0, INFINITE_LEASE, vv)
    else (a, b, pp, vv)

/-- DHCPv6ClientSavePacket: clear the old packet, record the SSID, store
the packet bytes and options, and (when a usable IA_NA binding exists)
normalize and store the lease with start = now. -/
def DHCPv6ClientSavePacket (c : Client) (m : Msg) (env : Env) : Client :=
  let c := clearPacket c
  let c := setSSID c env.ssid
  let c := { c with saved := some m, savedServerId := m.serverId,
                    iaBinding := get_ia_na_addr m }
  let c :=
    match get_ia_na_addr m with
    | none => c
    | some (ia, a) =>
      let r := DHCPv6ClientSavePacketLease ia.t1 ia.t2
                 a.preferredLifetime a.validLifetime
      { c with lease :=
        { c.lease with start := env.now, t1 := r.1, t2 := r.2.1,
                       preferredLifetime := r.2.2.1,
                       validLifetime := r.2.2.2 } }
  { c with savedVerified := true }

/-- DHCPv6ClientGetInfo: no info unless the saved option list exists and
saved_verified is set; otherwise exactly the saved packet and options. -/
def DHCPv6ClientGetInfo (c : Client) : Option Msg :=
  match c.saved with
  | none => none
  | some m => if c.savedVerified then some m else none

/-- DHCPv6Client_Solicit, IFEventID_start_e: set state, reset try, clear
the packet, fresh transaction id, enable receive, arm the initial jittered
timer (U(0, SOL_MAX_DELAY), drawn as `env.rand0`). -/
def solicitStart (c : Client) (env : Env) : Client :=
  let c := { c with cstate := .Solicit }
  let c := { c with tryCount := 0 }
  let c := clearPacket c
  let c := { c with transactionId := env.newTid, receiveEnabled := true }
  { c with timer := some (env.now + env.rand0) }

/-- DHCPv6Client_Request, IFEventID_timeout_e body: back to Solicit after
REQ_MAX_RC tries, otherwise retransmit with (REQ_TIMEOUT, REQ_MAX_RT). -/
def requestTimeout (c : Client) (env : Env) : Client :=
  if DHCPv6_REQ_MAX_RC ≤ c.tryCount then solicitStart c env
  else
    let r := DHCPv6ClientNextRetransmit c DHCPv6_REQ_TIMEOUT
               DHCPv6_REQ_MAX_RT env.u1 env.u2
    { r.1 with timer := some (env.now + r.2) }

/-- DHCPv6Client_Request, IFEventID_start_e (falls through into the
timeout body). -/
def requestStart (c : Client) (env : Env) : Client :=
  let c := { c with cstate := .Request, tryCount := 0,
                    transactionId := env.newTid, startTime := env.now,
                    receiveEnabled := true }
  requestTimeout c env

/-- DHCPv6Client_Decline, IFEventID_timeout_e body. -/
def declineTimeout (c : Client) (env : Env) : Client :=
  if DHCPv6_DEC_MAX_RC ≤ c.tryCount then solicitStart c env
  else
    let r := DHCPv6ClientNextRetransmit c DHCPv6_DEC_TIMEOUT 0 env.u1 env.u2
    { r.1 with timer := some (env.now + r.2) }

/-- DHCPv6Client_Decline, IFEventID_start_e (falls through into the
timeout body). -/
def declineStart (c : Client) (env : Env) : Client :=
  let c := { c with cstate := .Decline }
  let c := removeAddress c
  let c := cancelPendingEvents c
  let c := clearLease c
  let c := { c with savedVerified := false }
  let c := { c with tryCount := 0, transactionId := env.newTid,
                    receiveEnabled := true }
  declineTimeout c env

/-- DHCPv6Client_Confirm, IFEventID_start_e: initial jittered timer
(U(0, CNF_MAX_DELAY), drawn as `env.rand0`); no fall-through. -/
def confirmStart (c : Client) (env : Env) : Client :=
  let c := { c with cstate := .Confirm }
  let c := cancelPendingEvents c
  let c := { c with tryCount := 0, savedVerified := false,
                    transactionId := env.newTid, receiveEnabled := true }
  { c with timer := some (env.now + env.rand0) }

/-- DHCPv6Client_Unbound, IFEventID_start_e: drop the lease and restart
Solicit. -/
def unboundStart (c : Client) (env : Env) : Client :=
  let c := { c with cstate := .Unbound }
  let c := cancelPendingEvents c
  let c := removeAddress c
  let c := clearPacket c
  solicitStart c env

/-- DHCPv6Client_RenewRebind, IFEventID_timeout_e body: give up when the
lease is no longer valid; renew before T2 with (REN_TIMEOUT, REN_MAX_RT)
clamped to T2, rebind from T2 on with (REB_TIMEOUT, REB_MAX_RT) clamped to
expiry (switching state, transaction id and start on the first rebind). -/
def renewRebindTimeout (c : Client) (env : Env) : Client :=
  let r := DHCPv6ClientLeaseStillValid c env.now
  if r.2 = false then unboundStart r.1 env
  else
    let c := r.1
    let tss := castU32 (env.now - c.lease.start)
    if tss < c.lease.t2 then
      let r := DHCPv6ClientNextRetransmit c DHCPv6_REN_TIMEOUT
                 DHCPv6_REN_MAX_RT env.u1 env.u2
      let timeUntilT2 : ℚ := ((c.lease.t2 - tss : Nat) : ℚ)
      let wait := if timeUntilT2 < r.2 then timeUntilT2 else r.2
      { r.1 with renewRebindTime := env.now + wait,
                 timer := some (env.now + wait) }
    else
      let c :=
        if c.cstate ≠ .Rebind then
          { c with transactionId := env.newTid2, startTime := env.now,
                   cstate := .Rebind, tryCount := 0 }
        else c
      let r := DHCPv6ClientNextRetransmit c DHCPv6_REB_TIMEOUT
                 DHCPv6_REB_MAX_RT env.u1 env.u2
      let timeUntilExpiration : ℚ := ((c.lease.validLifetime - tss : Nat) : ℚ)
      let wait := if timeUntilExpiration < r.2 then timeUntilExpiration else r.2
      { r.1 with renewRebindTime := env.now + wait,
                 timer := some (env.now + wait) }

/-- DHCPv6Client_RenewRebind, IFEventID_start_e (falls through into the
timeout body). -/
def renewRebindStart (c : Client) (env : Env) : Client :=
  let c := { c with cstate := .Renew }
  let c := cancelPendingEvents c
  let c := { c with tryCount := 0, startTime := env.now,
                    transactionId := env.newTid, receiveEnabled := true }
  renewRebindTimeout c env

/-- The scan loop of DHCPv6ClientHandleAddressChanged over the kernel's
address list: a DUPLICATED entry for our address enters Decline, a
TENTATIVE one waits, otherwise the T1 renewal timer is scheduled (clamped
by elapsed time, minimum 10 s). -/
def scanAddrList (c : Client) (env : Env) : List AddrEntry → Client
  | [] => c
  | e :: rest =>
    if e.addr = c.ourIP then
      if e.duplicated then declineStart c env
      else if e.tentative then c
      else
        let c := cancelPendingEvents c
        if c.lease.validLifetime ≠ INFINITE_LEASE then
          if env.now < c.lease.start then unboundStart c env
          else
            let tss := castU32 (env.now - c.lease.start)
            let t1 := if tss < c.lease.t1 then c.lease.t1 - tss else 10
            { c with renewRebindTime := env.now + (t1 : ℚ),
                     timer := some (env.now + (t1 : ℚ)) }
        else c
    else scanAddrList c env rest

/-- DHCPv6ClientHandleAddressChanged. -/
def handleAddressChanged (c : Client) (env : Env)
    (addrs : List AddrEntry) : Client :=
  if addrs = [] then c
  else if c.cstate ≠ .Bound then c
  else scanAddrList c env addrs

/-- DHCPv6Client_Bound, IFEventID_start_e: commit the lease to the kernel
(residual lifetimes), refresh or swap the address, then look at the
current kernel address list.  The C code dereferences `client->ia_addr`
here; the entry is only reached with a saved binding, so the `none` case
is modelled as a no-op. -/
def boundStart (c : Client) (env : Env) : Client :=
  match c.iaBinding with
  | none => c
  | some (_, a) =>
    let c := { c with cstate := .Bound,
                      lease := { c.lease with valid := true },
                      savedVerified := true }
    let c := cancelPendingEvents c
    if c.lease.validLifetime ≠ INFINITE_LEASE ∧ env.now < c.lease.start then
      unboundStart c env
    else
      let tss :=
        if c.lease.validLifetime ≠ INFINITE_LEASE
        then castU32 (env.now - c.lease.start) else 0
      if c.lease.validLifetime ≠ INFINITE_LEASE ∧
          c.lease.validLifetime ≤ tss then
        unboundStart c env
      else if env.socketOK = false then c
      else
        let sameAddress := c.ourIP ≠ 0 ∧ c.ourIP = a.address
        let prefixLength :=
          if env.prefixLength = 0 then 128 else env.prefixLength
        if env.addOK = false then c
        else if sameAddress then
          let c := cancelPendingEvents c
          if c.lease.validLifetime ≠ INFINITE_LEASE then
            let t1 := if tss < c.lease.t1 then c.lease.t1 - tss else 10
            { c with renewRebindTime := env.now + (t1 : ℚ),
                     timer := some (env.now + (t1 : ℚ)) }
          else c
        else
          let c := { c with ourIP := a.address,
                            ourPrefixLength := prefixLength }
          handleAddressChanged c env env.addrList

/-- DHCPv6Client_InformComplete, IFEventID_start_e. -/
def informCompleteStart (c : Client) : Client :=
  let c := { c with cstate := .InformComplete }
  cancelPendingEvents c

/-- DHCPv6Client_Inform, IFEventID_timeout_e body. -/
def informTimeout (c : Client) (env : Env) : Client :=
  if c.tryCount ≠ 0 ∧ env.linkValid ∧ env.linkActive = false then
    clientInactive c
  else
    let c := if c.tryCount = 0 then { c with startTime := env.now } else c
    let r := DHCPv6ClientNextRetransmit c DHCPv6_INF_TIMEOUT
               DHCPv6_INF_MAX_RT env.u1 env.u2
    { r.1 with timer := some (env.now + r.2) }

/-- DHCPv6Client_Inform, IFEventID_start_e: on non-cellular interfaces an
initial jittered timer (U(0, INF_MAX_DELAY), drawn as `env.rand0`); on
cellular the entry falls through into the timeout body. -/
def informStart (c : Client) (env : Env) : Client :=
  let c := { c with cstate := .Inform }
  let c := clearPacket c
  let c := { c with tryCount := 0, transactionId := env.newTid,
                    receiveEnabled := true }
  if env.cellular = false then { c with timer := some (env.now + env.rand0) }
  else informTimeout c env

/-- The message type each state's receive handler expects: ADVERTISE in
Solicit, REPLY everywhere else. -/
def expectedMsgType : ClientState → Nat
  | .Solicit => msgADVERTISE
  | _ => msgREPLY

/-- The matching rules applied at the top of every receive handler:
expected message type, current transaction id, CLIENTID echoing our DUID,
and a present, valid SERVERID. -/
def msgMatches (c : Client) (m : Msg) : Bool :=
  decide (m.msgType = expectedMsgType c.cstate) &&
  decide (m.transactionId = c.transactionId) &&
  S_duid_matches c m &&
  (match m.serverId with
   | some sid => sid.valid
   | none => false)

/-- DHCPv6Client_Solicit, IFEventID_data_e: the ADVERTISE handler
(lines 2086-2167). -/
def solicitData (c : Client) (m : Msg) (env : Env) : Client :=
  if msgMatches c m = false then c
  else
    match m.topStatus with
    | none => c
    | some code =>
      if code = .NoAddrsAvail then c
      else
        match get_ia_na_addr m with
        | none => c
        | some _ =>
          let pref := get_preference_value_from_options m
          let keepSaved : Bool :=
            match c.saved with
            | some s => decide (pref ≤ get_preference_value_from_options s)
            | none => false
          if keepSaved then c
          else
            let c := DHCPv6ClientSavePacket c m env
            if 1 < c.tryCount ∨ pref = prefMaxValue then requestStart c env
            else c

/-- DHCPv6Client_Request, IFEventID_data_e: the REPLY handler
(lines 1968-2018). -/
def requestData (c : Client) (m : Msg) (env : Env) : Client :=
  if msgMatches c m = false then c
  else
    match m.topStatus with
    | none => c
    | some code =>
      if code = .NoAddrsAvail then c
      else
        let r := get_ia_na_addr_code m
        if r.2 = .NotOnLink then solicitStart c env
        else
          match r.1 with
          | none => c
          | some _ =>
            let c := DHCPv6ClientSavePacket c m env
            boundStart c env

/-- DHCPv6Client_RenewRebind, IFEventID_data_e: the REPLY handler. -/
def renewRebindData (c : Client) (m : Msg) (env : Env) : Client :=
  if msgMatches c m = false then c
  else
    match m.topStatus with
    | none => c
    | some code =>
      if code ≠ .Success then unboundStart c env
      else
        match get_ia_na_addr m with
        | none => unboundStart c env
        | some _ =>
          let c := DHCPv6ClientSavePacket c m env
          boundStart c env

/-- DHCPv6Client_Confirm, IFEventID_data_e: the REPLY handler. -/
def confirmData (c : Client) (m : Msg) (env : Env) : Client :=
  if msgMatches c m = false then c
  else
    match m.topStatus with
    | none => c
    | some code =>
      if code ≠ .Success then unboundStart c env
      else boundStart c env

/-- DHCPv6Client_Decline, IFEventID_data_e: any matching REPLY restarts
Solicit. -/
def declineData (c : Client) (m : Msg) (env : Env) : Client :=
  if msgMatches c m = false then c
  else solicitStart c env

/-- DHCPv6Client_Inform, IFEventID_data_e: a matching REPLY is saved and
the client moves to InformComplete. -/
def informData (c : Client) (m : Msg) (env : Env) : Client :=
  if msgMatches c m = false then c
  else
    let c := DHCPv6ClientSavePacket c m env
    informCompleteStart c

/-- Dispatch of a received message to the handler installed by the current
state; states that disabled receive ignore the message. -/
def handleData (c : Client) (m : Msg) (env : Env) : Client :=
  match c.cstate with
  | .Solicit => solicitData c m env
  | .Request => requestData c m env
  | .Renew => renewRebindData c m env
  | .Rebind => renewRebindData c m env
  | .Confirm => confirmData c m env
  | .Decline => declineData c m env
  | .Inform => informData c m env
  | _ => c

/-- link_status_is_inactive: the link status is valid and reports the
link down (the idiom used throughout the source). -/
def linkIsInactive (env : Env) : Bool :=
  env.linkValid ∧ env.linkActive = false

/-- DHCPv6ClientHandleWake (lines 1694-1781). -/
def DHCPv6ClientHandleWake (c : Client) (env : Env) : Client :=
  let waitForLinkActive := linkIsInactive env
  if waitForLinkActive ∨
      (env.wireless ∧ env.wakeInfo = .NetworkChanged) ∨
      (env.wireless = false ∧ env.wakeOnSameNetwork = false) then
    let c := removeAddress c
    if waitForLinkActive then c
    else if c.cstate ≠ .Solicit then solicitStart c env
    else c
  else
    let r := DHCPv6ClientLeaseStillValid c env.now
    if r.2 = false then
      if r.1.cstate ≠ .Solicit then unboundStart r.1 env else r.1
    else
      let c := r.1
      if S_dhcp_state_is_bound_renew_or_rebind c.cstate = false ∨
          env.wakeInfo = .BSSIDChanged then
        confirmStart c env
      else if c.lease.validLifetime = INFINITE_LEASE then c
      else if S_time_in_future env.now c.renewRebindTime env.wakeSkew then
        { c with timer := some c.renewRebindTime }
      else renewRebindStart c env

/-- DHCPv6ClientStart (lines 2197-2236): stateful mode confirms a
still-valid same-network lease and otherwise starts from Solicit;
stateless mode informs. -/
def DHCPv6ClientStart (c : Client) (allocateAddress privacyRequired : Bool)
    (env : Env) : Client :=
  let c := { c with privateAddress := privacyRequired }
  if allocateAddress then
    let c := { c with mode := .Stateful }
    let r := DHCPv6ClientLeaseStillValid c env.now
    if r.2 ∧ DHCPv6ClientLeaseOnSameNetwork r.1 env then
      confirmStart r.1 env
    else
      let c := removeAddress r.1
      let c := clearPacket c
      solicitStart c env
  else
    let c := { c with mode := .Stateless }
    let c := removeAddress c
    let c := clearPacket c
    informStart c env

/-- DHCPv6ClientStop. -/
def DHCPv6ClientStop (c : Client) (discardInformation : Bool) : Client :=
  let c := removeAddress c
  let c := cancelPendingEvents c
  let c := if discardInformation then clearPacket c
           else { c with savedVerified := false }
  { c with cstate := .Inactive, mode := .Idle }

/-! Spec-side definitions (transcribed from the claims' wording, to be
compared with the definitions above). -/

/-- The lease normalization exactly as claim C3 words it, applied as
sequential steps: (1) zero preferred becomes valid; (2) zero T1 or T2 is
derived from preferred; (3) an INFINITE T1 or T2 zeroes both and forces
preferred = valid = INFINITE; (4) an INFINITE valid lifetime resets T1
and T2 only. -/
def claimNormalize (t1 t2 preferred valid : Nat) : Nat × Nat × Nat × Nat :=
  let p := if preferred = 0 then valid else preferred
  let q :=
    if t1 = 0 ∨ t2 = 0 then
      if p = INFINITE_LEASE then ((0 : Nat), (0 : Nat))
      else (p / 2, 4 * p / 5)
    else (t1, t2)
  let r :=
    if q.1 = INFINITE_LEASE ∨ q.2 = INFINITE_LEASE then
      ((0 : Nat), (0 : Nat), INFINITE_LEASE, INFINITE_LEASE)
    else (q.1, q.2, p, valid)
  if r.2.2.2 = INFINITE_LEASE then (0, 0, r.2.2.1, r.2.2.2) else r

/-- The amended normalization: identical to `claimNormalize` except that
step (4) also forces preferred_lifetime to INFINITE (which is what the
code does). -/
def claimNormalizeAmended (t1 t2 preferred valid : Nat) :
    Nat × Nat × Nat × Nat :=
  let p := if preferred = 0 then valid else preferred
  let q :=
    if t1 = 0 ∨ t2 = 0 then
      if p = INFINITE_LEASE then ((0 : Nat), (0 : Nat))
      else (p / 2, 4 * p / 5)
    else (t1, t2)
  let r :=
    if q.1 = INFINITE_LEASE ∨ q.2 = INFINITE_LEASE then
      ((0 : Nat), (0 : Nat), INFINITE_LEASE, INFINITE_LEASE)
    else (q.1, q.2, p, valid)
  if r.2.2.2 = INFINITE_LEASE then (0, 0, INFINITE_LEASE, r.2.2.2) else r

/-- An IAADDR the scan accepts: well-formed, nonzero valid lifetime, and
preferred lifetime within the valid lifetime. -/
def iaaddrUsable (a : IAADDR) : Prop :=
  a.wellFormed = true ∧ a.validLifetime ≠ 0 ∧
    a.preferredLifetime ≤ a.validLifetime

/-- Declarative description of the IAADDR scan from claim C10: some
position holds a usable entry and every earlier entry is a well-formed
IAADDR with zero valid lifetime (skipped). -/
def ScanYields (l : List IAADDR) (a : IAADDR) : Prop :=
  ∃ i, ∃ h : i < l.length, l.get ⟨i, h⟩ = a ∧ iaaddrUsable a ∧
    ∀ b ∈ l.take i, b.wellFormed = true ∧ b.validLifetime = 0

/-! Helper lemmas shared between the claims. -/

theorem findUsableIAADDR_some (l : List IAADDR) (a : IAADDR)
    (h : findUsableIAADDR l = some a) : iaaddrUsable a := by
  induction l with
  | nil => simp [findUsableIAADDR] at h
  | cons x rest ih =>
    simp only [findUsableIAADDR] at h
    by_cases hwf : x.wellFormed = false
    · simp [hwf] at h
    · rw [if_neg hwf] at h
      by_cases hv : x.validLifetime = 0
      · rw [if_pos hv] at h
        exact ih h
      · rw [if_neg hv] at h
        by_cases hp : x.preferredLifetime > x.validLifetime
        · simp [hp] at h
        · rw [if_neg hp] at h
          injection h with h
          subst h
          exact ⟨by simpa using hwf, hv, by omega⟩

theorem findUsableIAADDR_eq_some_iff (l : List IAADDR) (a : IAADDR) :
    findUsableIAADDR l = some a ↔ ScanYields l a := by
  induction l with
  | nil =>
    simp only [findUsableIAADDR, ScanYields]
    constructor
    · intro h; cases h
    · rintro ⟨i, h, -⟩; simp at h
  | cons x rest ih =>
    simp only [findUsableIAADDR]
    by_cases hwf : x.wellFormed = false
    · rw [if_pos hwf]
      constructor
      · intro h; cases h
      · rintro ⟨i, hi, hget, husable, hskip⟩
        cases i with
        | zero =>
          simp only [List.get] at hget
          subst hget
          exact absurd husable.1 (by simp [hwf])
        | succ j =>
          have hx : x ∈ (x :: rest).take (j + 1) := by
            simp [List.take_succ_cons]
          have := (hskip x hx).1
          simp [hwf] at this
    · rw [if_neg hwf]
      have hwft : x.wellFormed = true := by
        cases hx : x.wellFormed
        · exact absurd hx hwf
        · rfl
      by_cases hv : x.validLifetime = 0
      · rw [if_pos hv, ih]
        constructor
        · rintro ⟨i, hi, hget, husable, hskip⟩
          refine ⟨i + 1, by simpa using Nat.succ_lt_succ hi, ?_, husable, ?_⟩
          · simpa using hget
          · intro b hb
            simp only [List.take_succ_cons, List.mem_cons] at hb
            rcases hb with rfl | hb
            · exact ⟨hwft, hv⟩
            · exact hskip b hb
        · rintro ⟨i, hi, hget, husable, hskip⟩
          cases i with
          | zero =>
            simp only [List.get] at hget
            subst hget
            exact absurd hv husable.2.1
          | succ j =>
            refine ⟨j, by simpa using hi, by simpa using hget, husable, ?_⟩
            intro b hb
            exact hskip b (by simp [List.take_succ_cons, hb])
      · rw [if_neg hv]
        by_cases hp : x.preferredLifetime > x.validLifetime
        · rw [if_pos hp]
          constructor
          · intro h; cases h
          · rintro ⟨i, hi, hget, husable, hskip⟩
            cases i with
            | zero =>
              simp only [List.get] at hget
              subst hget
              exact absurd husable.2.2 (by omega)
            | succ j =>
              have hx : x ∈ (x :: rest).take (j + 1) := by
                simp [List.take_succ_cons]
              exact absurd ((hskip x hx).2) hv
        · rw [if_neg hp]
          constructor
          · intro h
            cases h
            exact ⟨0, by simp, rfl, ⟨hwft, hv, by omega⟩, by simp⟩
          · rintro ⟨i, hi, hget, husable, hskip⟩
            cases i with
            | zero =>
              simp only [List.get] at hget
              exact congrArg some hget
            | succ j =>
              have hx : x ∈ (x :: rest).take (j + 1) := by
                simp [List.take_succ_cons]
              exact absurd ((hskip x hx).2) hv

theorem get_ia_na_addr_some (m : Msg) (ia : IA_NA) (a : IAADDR)
    (h : get_ia_na_addr m = some (ia, a)) :
    m.ia_na = some ia ∧ ia.longEnough = true ∧
      ¬(ia.t1 ≠ 0 ∧ ia.t2 ≠ 0 ∧ ia.t2 < ia.t1) ∧
      ia.nestedParse = true ∧ (ia.status).isSome = true ∧
      findUsableIAADDR ia.iaaddrs = some a := by
  unfold get_ia_na_addr get_ia_na_addr_code at h
  cases hna : m.ia_na with
  | none => rw [hna] at h; cases h
  | some ia0 =>
    rw [hna] at h
    dsimp only at h
    by_cases hlong : ia0.longEnough = false
    · simp [hlong] at h
    · rw [if_neg hlong] at h
      by_cases hconf : ia0.t1 ≠ 0 ∧ ia0.t2 ≠ 0 ∧ ia0.t1 > ia0.t2
      · simp [hconf] at h
      · rw [if_neg hconf] at h
        by_cases hparse : ia0.nestedParse = false
        · simp [hparse] at h
        · rw [if_neg hparse] at h
          cases hstat : ia0.status with
          | none => rw [hstat] at h; cases h
          | some code =>
            rw [hstat] at h
            cases hfind : findUsableIAADDR ia0.iaaddrs with
            | none => rw [hfind] at h; cases h
            | some a0 =>
              rw [hfind] at h
              simp only [Prod.fst] at h
              injection h with h
              injection h with h1 h2
              subst h1; subst h2
              refine ⟨rfl, by simpa using hlong, by omega,
                by simpa using hparse, by simp [hstat], hfind⟩

theorem leaseStillValid_true_fst (c : Client) (now : ℚ)
    (h : (DHCPv6ClientLeaseStillValid c now).2 = true) :
    (DHCPv6ClientLeaseStillValid c now).1 = c := by
  unfold DHCPv6ClientLeaseStillValid at h ⊢
  split_ifs at h ⊢ <;> simp_all

theorem leaseStillValid_congr (c c' : Client) (now : ℚ)
    (h : c.lease = c'.lease) :
    (DHCPv6ClientLeaseStillValid c now).2 =
      (DHCPv6ClientLeaseStillValid c' now).2 := by
  unfold DHCPv6ClientLeaseStillValid
  rw [h]
  split_ifs <;> rfl

theorem savePacket_saved (c : Client) (m : Msg) (env : Env) :
    (DHCPv6ClientSavePacket c m env).saved = some m := by
  unfold DHCPv6ClientSavePacket
  cases h : get_ia_na_addr m <;> simp [h]

theorem savePacket_cstate (c : Client) (m : Msg) (env : Env) :
    (DHCPv6ClientSavePacket c m env).cstate = c.cstate := by
  unfold DHCPv6ClientSavePacket
  cases h : get_ia_na_addr m <;> simp [h, clearPacket, clearLease, setSSID]

theorem savePacket_tryCount (c : Client) (m : Msg) (env : Env) :
    (DHCPv6ClientSavePacket c m env).tryCount = c.tryCount := by
  unfold DHCPv6ClientSavePacket
  cases h : get_ia_na_addr m <;> simp [h, clearPacket, clearLease, setSSID]

theorem savePacket_verified (c : Client) (m : Msg) (env : Env) :
    (DHCPv6ClientSavePacket c m env).savedVerified = true := by
  unfold DHCPv6ClientSavePacket
  cases h : get_ia_na_addr m <;> simp [h]

theorem savePacket_binding (c : Client) (m : Msg) (env : Env) :
    (DHCPv6ClientSavePacket c m env).iaBinding = get_ia_na_addr m := by
  unfold DHCPv6ClientSavePacket
  cases h : get_ia_na_addr m <;> simp [h]

theorem requestStart_cstate (c : Client) (env : Env) :
    (requestStart c env).cstate = .Request := by
  unfold requestStart requestTimeout
  rw [if_neg (by simp [DHCPv6_REQ_MAX_RC])]
  rfl

theorem requestStart_saved (c : Client) (env : Env) :
    (requestStart c env).saved = c.saved := by
  unfold requestStart requestTimeout
  rw [if_neg (by simp [DHCPv6_REQ_MAX_RC])]
  rfl

/-! Concrete fixtures used by the witnesses and counterexamples. -/

/-- A client sitting in Solicit after its first transmission. -/
def clientBase : Client :=
  { cstate := .Solicit, mode := .Stateful, transactionId := 7, tryCount := 1,
    startTime := 0, retransmitTime := 0, saved := none,
    savedVerified := false, savedServerId := none, iaBinding := none,
    lease := Lease.zero, ourIP := 0, ourPrefixLength := 0, duid := [1],
    privateAddress := false, renewRebindTime := 0, timer := none,
    receiveEnabled := true }

/-- A benign environment snapshot. -/
def envBase : Env :=
  { now := 0, newTid := 8, newTid2 := 9, u1 := 0, u2 := 0, rand0 := 0,
    ssid := none, wireless := false, cellular := false, linkValid := true,
    linkActive := true, wakeOnSameNetwork := true, wakeInfo := .NoChange,
    prefixLength := 0, socketOK := true, addOK := true, addrList := [],
    wakeSkew := 30 }

/-- A well-formed IAADDR with finite lifetimes. -/
def iaaddrGood : IAADDR :=
  { wellFormed := true, address := 42, preferredLifetime := 600,
    validLifetime := 900 }

/-- A usable IA_NA carrying `iaaddrGood`. -/
def iaGood : IA_NA :=
  { longEnough := true, t1 := 0, t2 := 0, nestedParse := true,
    status := some .Success, iaaddrs := [iaaddrGood] }

/-- A matching ADVERTISE carrying `iaGood`, no PREFERENCE option. -/
def msgAdvGood : Msg :=
  { msgType := msgADVERTISE, transactionId := 7, clientId := some [1],
    serverId := some ⟨true⟩, topStatus := some .Success,
    preference := none, ia_na := some iaGood }

/-! Claim theorems. -/

theorem leaseStillValid_snd (c : Client) (now : ℚ) :
    (DHCPv6ClientLeaseStillValid c now).2 =
      if c.lease.valid = false then false
      else if c.lease.validLifetime = INFINITE_LEASE then true
      else if now < c.lease.start then false
      else if (c.lease.validLifetime : ℚ) ≤ now - c.lease.start then false
      else true := by
  unfold DHCPv6ClientLeaseStillValid
  split_ifs <;> rfl

/-- C4: the lease-still-valid test returns true iff the valid flag is set
and (valid_lifetime is INFINITE or (now is at or after start and the
elapsed time is below valid_lifetime)); in particular a finite lease with
now before start (wall clock went backwards) tests invalid. -/
theorem C4_lease_still_valid (c : Client) (now : ℚ) :
    ((DHCPv6ClientLeaseStillValid c now).2 = true ↔
      (c.lease.valid = true ∧
        (c.lease.validLifetime = INFINITE_LEASE ∨
          (c.lease.start ≤ now ∧
            now - c.lease.start < (c.lease.validLifetime : ℚ))))) ∧
    (c.lease.valid = true → c.lease.validLifetime ≠ INFINITE_LEASE →
      now < c.lease.start →
      (DHCPv6ClientLeaseStillValid c now).2 = false) := by
  rw [leaseStillValid_snd]
  constructor
  · split_ifs with h1 h2 h3 h4
    · simp_all
    · simp_all
    · constructor
      · intro h; simp at h
      · rintro ⟨-, h | ⟨hge, -⟩⟩
        · exact absurd h h2
        · exact absurd h3 (not_lt.mpr hge)
    · constructor
      · intro h; simp at h
      · rintro ⟨-, h | ⟨-, hlt⟩⟩
        · exact absurd h h2
        · exact absurd h4 (not_le.mpr hlt)
    · simp only [true_iff]
      exact ⟨by simpa using h1, Or.inr ⟨not_lt.mp h3, not_le.mp h4⟩⟩
  · intro hv hfin hlt
    split_ifs <;> simp_all

/-- C6: the first interval is IRT(1+u) with u in [-0.1, 0.1]; every later
interval is 2*RTprev + u*RTprev, except that when MRT is nonzero and that
value exceeds MRT the interval is MRT(1+u); correspondingly the interval
is within 0.1*RTprev of 2*RTprev, and within 0.1*MRT of MRT when MRT is
hit. -/
theorem C6_backoff (c : Client) (IRT MRT u1 u2 : ℚ)
    (h1 : |u1| ≤ 1/10) (h2 : |u2| ≤ 1/10)
    (hprev : 0 ≤ c.retransmitTime) (hM : 0 ≤ MRT) :
    (c.tryCount = 0 →
      ∃ u, |u| ≤ 1/10 ∧
        (DHCPv6ClientNextRetransmit c IRT MRT u1 u2).2 = IRT * (1 + u)) ∧
    (c.tryCount ≠ 0 →
      ((MRT ≠ 0 ∧ 2 * c.retransmitTime + u1 * c.retransmitTime > MRT) →
        (∃ u, |u| ≤ 1/10 ∧
          (DHCPv6ClientNextRetransmit c IRT MRT u1 u2).2 = MRT * (1 + u)) ∧
        |(DHCPv6ClientNextRetransmit c IRT MRT u1 u2).2 - MRT|
          ≤ MRT / 10) ∧
      (¬(MRT ≠ 0 ∧ 2 * c.retransmitTime + u1 * c.retransmitTime > MRT) →
        (∃ u, |u| ≤ 1/10 ∧
          (DHCPv6ClientNextRetransmit c IRT MRT u1 u2).2
            = 2 * c.retransmitTime + u * c.retransmitTime) ∧
        |(DHCPv6ClientNextRetransmit c IRT MRT u1 u2).2
            - 2 * c.retransmitTime| ≤ c.retransmitTime / 10)) := by
  have hsnd : (DHCPv6ClientNextRetransmit c IRT MRT u1 u2).2 =
      if c.tryCount + 1 = 1 then DHCPv6InitialTimeout IRT u1
      else DHCPv6SubsequentTimeout c.retransmitTime MRT u1 u2 := rfl
  constructor
  · intro h0
    refine ⟨u1, h1, ?_⟩
    rw [hsnd, if_pos (by omega)]
    unfold DHCPv6InitialTimeout
    ring
  · intro hne
    rw [hsnd, if_neg (by omega)]
    unfold DHCPv6SubsequentTimeout
    constructor
    · intro hclamp
      simp only [if_pos hclamp]
      refine ⟨⟨u2, h2, by ring⟩, ?_⟩
      have heq : MRT + u2 * MRT - MRT = u2 * MRT := by ring
      rw [heq, abs_mul, abs_of_nonneg hM]
      calc |u2| * MRT ≤ (1/10) * MRT := mul_le_mul_of_nonneg_right h2 hM
        _ = MRT / 10 := by ring
    · intro hclamp
      simp only [if_neg hclamp]
      refine ⟨⟨u1, h1, rfl⟩, ?_⟩
      have heq : 2 * c.retransmitTime + u1 * c.retransmitTime
          - 2 * c.retransmitTime = u1 * c.retransmitTime := by ring
      rw [heq, abs_mul, abs_of_nonneg hprev]
      calc |u1| * c.retransmitTime ≤ (1/10) * c.retransmitTime :=
            mul_le_mul_of_nonneg_right h1 hprev
        _ = c.retransmitTime / 10 := by ring

/-- C6 witness: the theorem applied at a concrete client and inputs. -/
theorem C6_backoff_witness :
    (clientBase.tryCount = 0 →
      ∃ u, |u| ≤ 1/10 ∧
        (DHCPv6ClientNextRetransmit clientBase 1 0 0 0).2 = 1 * (1 + u)) ∧
    (clientBase.tryCount ≠ 0 →
      (((0:ℚ) ≠ 0 ∧ 2 * clientBase.retransmitTime
          + 0 * clientBase.retransmitTime > 0) →
        (∃ u, |u| ≤ 1/10 ∧
          (DHCPv6ClientNextRetransmit clientBase 1 0 0 0).2 = 0 * (1 + u)) ∧
        |(DHCPv6ClientNextRetransmit clientBase 1 0 0 0).2 - 0| ≤ 0 / 10) ∧
      (¬((0:ℚ) ≠ 0 ∧ 2 * clientBase.retransmitTime
          + 0 * clientBase.retransmitTime > 0) →
        (∃ u, |u| ≤ 1/10 ∧
          (DHCPv6ClientNextRetransmit clientBase 1 0 0 0).2
            = 2 * clientBase.retransmitTime
              + u * clientBase.retransmitTime) ∧
        |(DHCPv6ClientNextRetransmit clientBase 1 0 0 0).2
            - 2 * clientBase.retransmitTime|
          ≤ clientBase.retransmitTime / 10)) :=
  C6_backoff clientBase 1 0 0 0 (by norm_num) (by norm_num)
    (by norm_num [clientBase]) (by norm_num)

/-- C7: get_info yields nothing when saved_verified is false, yields
exactly the saved packet otherwise, so under the invariant maintained by
the save/clear routines (a verified packet is present) the result is
non-empty iff saved_verified; moreover DHCPv6ClientSavePacket always
leaves the just-saved packet as the result of get_info. -/
theorem C7_get_info (c : Client)
    (hinv : c.savedVerified = true → c.saved.isSome = true) :
    (c.savedVerified = false → DHCPv6ClientGetInfo c = none) ∧
    (c.savedVerified = true → DHCPv6ClientGetInfo c = c.saved) ∧
    ((DHCPv6ClientGetInfo c).isSome = true ↔ c.savedVerified = true) ∧
    (∀ c0 m env,
      DHCPv6ClientGetInfo (DHCPv6ClientSavePacket c0 m env) = some m) := by
  refine ⟨?_, ?_, ?_, ?_⟩
  · intro h
    unfold DHCPv6ClientGetInfo
    cases c.saved <;> simp [h]
  · intro h
    unfold DHCPv6ClientGetInfo
    have := hinv h
    cases hs : c.saved
    · simp [hs] at this
    · simp [h]
  · constructor
    · intro h
      by_contra hv
      have hnone : DHCPv6ClientGetInfo c = none := by
        unfold DHCPv6ClientGetInfo
        cases hs : c.saved
        · rfl
        · simp only [Bool.not_eq_true] at hv
          simp [hv]
      rw [hnone] at h
      simp at h
    · intro h
      have hsome := hinv h
      unfold DHCPv6ClientGetInfo
      cases hs : c.saved
      · simp [hs] at hsome
      · simp [h]
  · intro c0 m env
    unfold DHCPv6ClientGetInfo
    rw [savePacket_saved, savePacket_verified]
    rfl

/-- C7 witness: the theorem applied at the base client (nothing saved). -/
theorem C7_get_info_witness :
    (clientBase.savedVerified = false →
      DHCPv6ClientGetInfo clientBase = none) ∧
    (clientBase.savedVerified = true →
      DHCPv6ClientGetInfo clientBase = clientBase.saved) ∧
    ((DHCPv6ClientGetInfo clientBase).isSome = true ↔
      clientBase.savedVerified = true) ∧
    (∀ c0 m env,
      DHCPv6ClientGetInfo (DHCPv6ClientSavePacket c0 m env) = some m) :=
  C7_get_info clientBase (by decide)

/-- C2: a received message that fails the matching rules (wrong message
type for the state, wrong transaction id, CLIENTID not echoing our DUID,
or SERVERID missing/invalid) leaves the client completely unchanged in
every state. -/
theorem C2_nonmatching_ignored (c : Client) (m : Msg) (env : Env)
    (h : msgMatches c m = false) : handleData c m env = c := by
  unfold handleData
  split <;>
    simp_all [solicitData, requestData, renewRebindData, confirmData,
      declineData, informData]

/-- C2 witness: a REPLY received in Solicit (wrong type) is ignored. -/
theorem C2_nonmatching_ignored_witness :
    msgMatches clientBase { msgAdvGood with msgType := msgREPLY } = false ∧
    handleData clientBase { msgAdvGood with msgType := msgREPLY } envBase
      = clientBase :=
  ⟨by decide,
   C2_nonmatching_ignored clientBase
     { msgAdvGood with msgType := msgREPLY } envBase (by decide)⟩

/-- C1 counterexample: a matching ADVERTISE with a usable IA_NA arrives
on the first try (try = 1) with preference 0 and nothing saved.  The
claim says the client goes to Request immediately (first try); the code
stays in Solicit (it only goes immediately when try exceeds 1 or the
preference is 255). -/
theorem C1_counterexample :
    clientBase.cstate = .Solicit ∧
    clientBase.tryCount = 1 ∧
    clientBase.saved = none ∧
    msgMatches clientBase msgAdvGood = true ∧
    msgAdvGood.topStatus = some .Success ∧
    get_ia_na_addr msgAdvGood = some (iaGood, iaaddrGood) ∧
    get_preference_value_from_options msgAdvGood = 0 ∧
    (solicitData clientBase msgAdvGood envBase).cstate = .Solicit ∧
    ClientState.Solicit ≠ ClientState.Request := by
  decide

/-- C1 (amended): on a matching ADVERTISE with a usable IA_NA binding in
Solicit, the saved ADVERTISE is replaced iff the new preference (default
0) is strictly greater than the saved one's (unconditionally saved when
nothing is saved); the client moves to Request immediately iff the new
message was saved and (the try counter exceeds 1 or the preference is
255); otherwise it stays in Solicit. -/
theorem C1_solicit_advertise (c : Client) (m : Msg) (env : Env)
    (code : StatusCode) (b : IA_NA × IAADDR)
    (hst : c.cstate = .Solicit)
    (hm : msgMatches c m = true)
    (hcode : m.topStatus = some code)
    (hna : code ≠ .NoAddrsAvail)
    (hia : get_ia_na_addr m = some b) :
    (∀ s, c.saved = some s →
      ((get_preference_value_from_options m
          ≤ get_preference_value_from_options s →
        solicitData c m env = c) ∧
       (get_preference_value_from_options s
          < get_preference_value_from_options m →
        (solicitData c m env).saved = some m))) ∧
    (c.saved = none → (solicitData c m env).saved = some m) ∧
    ((solicitData c m env).cstate = .Request ↔
      ((c.saved = none ∨ ∃ s, c.saved = some s ∧
          get_preference_value_from_options s
            < get_preference_value_from_options m) ∧
        (1 < c.tryCount ∨
          get_preference_value_from_options m = prefMaxValue))) ∧
    ((solicitData c m env).cstate = .Request ∨
      (solicitData c m env).cstate = .Solicit) := by
  have htc := savePacket_tryCount c m env
  refine ⟨?_, ?_, ?_, ?_⟩
  · intro s hs
    constructor
    · intro hle
      simp [solicitData, hm, hcode, hna, hia, hs, hle]
    · intro hlt
      have hle : ¬(get_preference_value_from_options m
          ≤ get_preference_value_from_options s) := not_le.mpr hlt
      by_cases htr : 1 < (DHCPv6ClientSavePacket c m env).tryCount ∨
          get_preference_value_from_options m = prefMaxValue
      · simp [solicitData, hm, hcode, hna, hia, hs, hle, htr,
          requestStart_saved, savePacket_saved]
      · simp [solicitData, hm, hcode, hna, hia, hs, hle, htr,
          savePacket_saved]
  · intro hs
    by_cases htr : 1 < (DHCPv6ClientSavePacket c m env).tryCount ∨
        get_preference_value_from_options m = prefMaxValue
    · simp [solicitData, hm, hcode, hna, hia, hs, htr,
        requestStart_saved, savePacket_saved]
    · simp [solicitData, hm, hcode, hna, hia, hs, htr, savePacket_saved]
  · cases hs : c.saved with
    | none =>
      by_cases htr : 1 < (DHCPv6ClientSavePacket c m env).tryCount ∨
          get_preference_value_from_options m = prefMaxValue
      · have hres : solicitData c m env =
            requestStart (DHCPv6ClientSavePacket c m env) env := by
          simp [solicitData, hm, hcode, hna, hia, hs, htr]
        rw [hres, requestStart_cstate]
        rw [htc] at htr
        simp only [true_iff]
        exact ⟨Or.inl (by simp), htr⟩
      · have hres : solicitData c m env =
            DHCPv6ClientSavePacket c m env := by
          simp [solicitData, hm, hcode, hna, hia, hs, htr]
        rw [hres, savePacket_cstate, hst]
        rw [htc] at htr
        constructor
        · intro h; cases h
        · rintro ⟨-, h2⟩
          exact absurd h2 htr
    | some s =>
      by_cases hle : get_preference_value_from_options m
          ≤ get_preference_value_from_options s
      · have hres : solicitData c m env = c := by
          simp [solicitData, hm, hcode, hna, hia, hs, hle]
        rw [hres, hst]
        constructor
        · intro h; cases h
        · rintro ⟨h | ⟨s', hs', hlt⟩, -⟩
          · cases h
          · injection hs' with hss
            subst hss
            exact absurd hle (not_le.mpr hlt)
      · have hlt := not_le.mp hle
        by_cases htr : 1 < (DHCPv6ClientSavePacket c m env).tryCount ∨
            get_preference_value_from_options m = prefMaxValue
        · have hres : solicitData c m env =
              requestStart (DHCPv6ClientSavePacket c m env) env := by
            simp [solicitData, hm, hcode, hna, hia, hs, hle, htr]
          rw [hres, requestStart_cstate]
          rw [htc] at htr
          simp only [true_iff]
          exact ⟨Or.inr ⟨s, rfl, hlt⟩, htr⟩
        · have hres : solicitData c m env =
              DHCPv6ClientSavePacket c m env := by
            simp [solicitData, hm, hcode, hna, hia, hs, hle, htr]
          rw [hres, savePacket_cstate, hst]
          rw [htc] at htr
          constructor
          · intro h; cases h
          · rintro ⟨-, h2⟩
            exact absurd h2 htr
  · cases hs : c.saved with
    | none =>
      by_cases htr : 1 < (DHCPv6ClientSavePacket c m env).tryCount ∨
          get_preference_value_from_options m = prefMaxValue
      · left
        simp [solicitData, hm, hcode, hna, hia, hs, htr, requestStart_cstate]
      · right
        simp [solicitData, hm, hcode, hna, hia, hs, htr, savePacket_cstate,
          hst]
    | some s =>
      by_cases hle : get_preference_value_from_options m
          ≤ get_preference_value_from_options s
      · right
        simp [solicitData, hm, hcode, hna, hia, hs, hle, hst]
      · by_cases htr : 1 < (DHCPv6ClientSavePacket c m env).tryCount ∨
            get_preference_value_from_options m = prefMaxValue
        · left
          simp [solicitData, hm, hcode, hna, hia, hs, hle, htr,
            requestStart_cstate]
        · right
          simp [solicitData, hm, hcode, hna, hia, hs, hle, htr,
            savePacket_cstate, hst]

/-- A client in Solicit that has already retransmitted (try = 2). -/
def clientTry2 : Client :=
  { clientBase with tryCount := 2 }

/-- C1 witness: the amended theorem applied at a concrete client whose
try counter is 2. -/
theorem C1_solicit_advertise_witness :
    (∀ s, clientTry2.saved = some s →
      ((get_preference_value_from_options msgAdvGood
          ≤ get_preference_value_from_options s →
        solicitData clientTry2 msgAdvGood envBase = clientTry2) ∧
       (get_preference_value_from_options s
          < get_preference_value_from_options msgAdvGood →
        (solicitData clientTry2 msgAdvGood envBase).saved
          = some msgAdvGood))) ∧
    (clientTry2.saved = none →
      (solicitData clientTry2 msgAdvGood envBase).saved = some msgAdvGood) ∧
    ((solicitData clientTry2 msgAdvGood envBase).cstate = .Request ↔
      ((clientTry2.saved = none ∨ ∃ s, clientTry2.saved = some s ∧
          get_preference_value_from_options s
            < get_preference_value_from_options msgAdvGood) ∧
        (1 < clientTry2.tryCount ∨
          get_preference_value_from_options msgAdvGood = prefMaxValue))) ∧
    ((solicitData clientTry2 msgAdvGood envBase).cstate = .Request ∨
      (solicitData clientTry2 msgAdvGood envBase).cstate = .Solicit) :=
  C1_solicit_advertise clientTry2 msgAdvGood envBase .Success
    (iaGood, iaaddrGood) (by decide) (by decide) (by decide) (by decide)
    (by decide)

/-- An IAADDR with finite preferred lifetime 7 and INFINITE valid
lifetime. -/
def iaaddrInf : IAADDR :=
  { wellFormed := true, address := 42, preferredLifetime := 7,
    validLifetime := INFINITE_LEASE }

/-- An IA_NA with T1 = T2 = 5 carrying `iaaddrInf`. -/
def iaInf : IA_NA :=
  { longEnough := true, t1 := 5, t2 := 5, nestedParse := true,
    status := some .Success, iaaddrs := [iaaddrInf] }

/-- A REPLY carrying `iaInf`. -/
def msgReplyInf : Msg :=
  { msgType := msgREPLY, transactionId := 7, clientId := some [1],
    serverId := some ⟨true⟩, topStatus := some .Success,
    preference := none, ia_na := some iaInf }

/-- C3 counterexample: a reply with T1 = T2 = 5, preferred = 7,
valid = INFINITE.  Steps (1)-(3) of the claim leave everything unchanged
and step (4), as claimed, only resets T1 and T2, yielding preferred = 7;
the code also forces preferred = INFINITE, so the stored lease differs
from the claim's normalization in the preferred_lifetime field. -/
theorem C3_counterexample :
    get_ia_na_addr msgReplyInf = some (iaInf, iaaddrInf) ∧
    ((DHCPv6ClientSavePacket clientBase msgReplyInf envBase).lease.t1,
     (DHCPv6ClientSavePacket clientBase msgReplyInf envBase).lease.t2,
     (DHCPv6ClientSavePacket clientBase msgReplyInf
        envBase).lease.preferredLifetime,
     (DHCPv6ClientSavePacket clientBase msgReplyInf
        envBase).lease.validLifetime) =
      (0, 0, INFINITE_LEASE, INFINITE_LEASE) ∧
    claimNormalize 5 5 7 INFINITE_LEASE = (0, 0, 7, INFINITE_LEASE) ∧
    ((0 : Nat), (0 : Nat), INFINITE_LEASE, INFINITE_LEASE) ≠
      ((0 : Nat), (0 : Nat), (7 : Nat), INFINITE_LEASE) := by
  decide

theorem savePacketLease_eq_claimAmended (t1 t2 p v : Nat)
    (h3 : p < 4294967296) (h4 : v < 4294967296) :
    DHCPv6ClientSavePacketLease t1 t2 p v =
      claimNormalizeAmended t1 t2 p v := by
  unfold DHCPv6ClientSavePacketLease claimNormalizeAmended INFINITE_LEASE
  dsimp only
  split_ifs <;> simp_all [Prod.mk.injEq] <;> omega

theorem savePacket_lease (c : Client) (m : Msg) (env : Env)
    (ia : IA_NA) (a : IAADDR)
    (hia : get_ia_na_addr m = some (ia, a)) :
    (DHCPv6ClientSavePacket c m env).lease =
      { start := env.now,
        t1 := (DHCPv6ClientSavePacketLease ia.t1 ia.t2
                a.preferredLifetime a.validLifetime).1,
        t2 := (DHCPv6ClientSavePacketLease ia.t1 ia.t2
                a.preferredLifetime a.validLifetime).2.1,
        validLifetime := (DHCPv6ClientSavePacketLease ia.t1 ia.t2
                a.preferredLifetime a.validLifetime).2.2.2,
        preferredLifetime := (DHCPv6ClientSavePacketLease ia.t1 ia.t2
                a.preferredLifetime a.validLifetime).2.2.1,
        valid := false,
        ssid := env.ssid } := by
  unfold DHCPv6ClientSavePacket
  rw [hia]
  dsimp only
  simp [clearPacket, clearLease, setSSID, Lease.zero]

theorem claimNormalizeAmended_invariants (t1 t2 p v : Nat)
    (hts : ¬(t1 ≠ 0 ∧ t2 ≠ 0 ∧ t2 < t1)) :
    ((claimNormalizeAmended t1 t2 p v).1 ≠ 0 →
      (claimNormalizeAmended t1 t2 p v).2.1 ≠ 0 →
      (claimNormalizeAmended t1 t2 p v).1
        ≤ (claimNormalizeAmended t1 t2 p v).2.1) ∧
    ((claimNormalizeAmended t1 t2 p v).2.2.2 = INFINITE_LEASE →
      (claimNormalizeAmended t1 t2 p v).1 = 0 ∧
      (claimNormalizeAmended t1 t2 p v).2.1 = 0) := by
  unfold claimNormalizeAmended INFINITE_LEASE
  dsimp only
  split_ifs <;> simp_all <;> omega

/-- C3 (amended): saving a packet with a usable IA_NA binding stores
lease.start = now and lease times normalized by the claim's steps
(1)-(4) with step (4) amended to force preferred = INFINITE as well; in
every case T1 is at most T2 when both are nonzero, and an INFINITE valid
lifetime forces T1 = T2 = 0. -/
theorem C3_lease_normalization (c : Client) (m : Msg) (env : Env)
    (ia : IA_NA) (a : IAADDR)
    (hia : get_ia_na_addr m = some (ia, a))
    (h3 : a.preferredLifetime < 4294967296)
    (h4 : a.validLifetime < 4294967296) :
    ((DHCPv6ClientSavePacket c m env).lease.start = env.now) ∧
    ((DHCPv6ClientSavePacket c m env).lease.t1,
     (DHCPv6ClientSavePacket c m env).lease.t2,
     (DHCPv6ClientSavePacket c m env).lease.preferredLifetime,
     (DHCPv6ClientSavePacket c m env).lease.validLifetime) =
      claimNormalizeAmended ia.t1 ia.t2
        a.preferredLifetime a.validLifetime ∧
    ((DHCPv6ClientSavePacket c m env).lease.t1 ≠ 0 →
      (DHCPv6ClientSavePacket c m env).lease.t2 ≠ 0 →
      (DHCPv6ClientSavePacket c m env).lease.t1
        ≤ (DHCPv6ClientSavePacket c m env).lease.t2) ∧
    ((DHCPv6ClientSavePacket c m env).lease.validLifetime
        = INFINITE_LEASE →
      (DHCPv6ClientSavePacket c m env).lease.t1 = 0 ∧
      (DHCPv6ClientSavePacket c m env).lease.t2 = 0) := by
  have hfil := (get_ia_na_addr_some m ia a hia).2.2.1
  have hlease := savePacket_lease c m env ia a hia
  have heq := savePacketLease_eq_claimAmended ia.t1 ia.t2
    a.preferredLifetime a.validLifetime h3 h4
  have hinv := claimNormalizeAmended_invariants ia.t1 ia.t2
    a.preferredLifetime a.validLifetime hfil
  rw [hlease]
  dsimp only
  rw [heq]
  exact ⟨rfl, rfl, hinv.1, hinv.2⟩

/-- C3 witness: the amended theorem applied at the INFINITE-valid
fixture. -/
theorem C3_lease_normalization_witness :
    ((DHCPv6ClientSavePacket clientBase msgReplyInf envBase).lease.start
        = envBase.now) ∧
    ((DHCPv6ClientSavePacket clientBase msgReplyInf envBase).lease.t1,
     (DHCPv6ClientSavePacket clientBase msgReplyInf envBase).lease.t2,
     (DHCPv6ClientSavePacket clientBase msgReplyInf
        envBase).lease.preferredLifetime,
     (DHCPv6ClientSavePacket clientBase msgReplyInf
        envBase).lease.validLifetime) =
      claimNormalizeAmended iaInf.t1 iaInf.t2
        iaaddrInf.preferredLifetime iaaddrInf.validLifetime ∧
    ((DHCPv6ClientSavePacket clientBase msgReplyInf envBase).lease.t1 ≠ 0 →
      (DHCPv6ClientSavePacket clientBase msgReplyInf envBase).lease.t2
        ≠ 0 →
      (DHCPv6ClientSavePacket clientBase msgReplyInf envBase).lease.t1
        ≤ (DHCPv6ClientSavePacket clientBase msgReplyInf
            envBase).lease.t2) ∧
    ((DHCPv6ClientSavePacket clientBase msgReplyInf
        envBase).lease.validLifetime = INFINITE_LEASE →
      (DHCPv6ClientSavePacket clientBase msgReplyInf envBase).lease.t1
          = 0 ∧
      (DHCPv6ClientSavePacket clientBase msgReplyInf envBase).lease.t2
          = 0) :=
  C3_lease_normalization clientBase msgReplyInf envBase iaInf iaaddrInf
    (by decide) (by decide) (by decide)

/-- C10: the IA_NA extraction yields a usable binding exactly when the
IA_NA option is present and long enough, T1/T2 are not both nonzero with
T1 above T2, the nested options parse (including the STATUS_CODE data),
and the in-order IAADDR scan - skipping well-formed entries with zero
valid lifetime - reaches a well-formed entry with nonzero valid lifetime
and preferred at most valid. -/
theorem C10_ia_na_extraction (m : Msg) (ia : IA_NA) (a : IAADDR) :
    get_ia_na_addr m = some (ia, a) ↔
      (m.ia_na = some ia ∧ ia.longEnough = true ∧
        ¬(ia.t1 ≠ 0 ∧ ia.t2 ≠ 0 ∧ ia.t2 < ia.t1) ∧
        ia.nestedParse = true ∧ (ia.status).isSome = true ∧
        ScanYields ia.iaaddrs a) := by
  constructor
  · intro h
    have hsome := get_ia_na_addr_some m ia a h
    exact ⟨hsome.1, hsome.2.1, hsome.2.2.1, hsome.2.2.2.1,
      hsome.2.2.2.2.1,
      (findUsableIAADDR_eq_some_iff _ _).mp hsome.2.2.2.2.2⟩
  · rintro ⟨hna, hlong, hts, hparse, hstat, hscan⟩
    have hfind := (findUsableIAADDR_eq_some_iff _ _).mpr hscan
    unfold get_ia_na_addr get_ia_na_addr_code
    rw [hna]
    dsimp only
    rw [if_neg (by simp [hlong]),
      if_neg (fun hcon => hts ⟨hcon.1, hcon.2.1, hcon.2.2⟩),
      if_neg (by simp [hparse])]
    obtain ⟨code, hcode⟩ := Option.isSome_iff_exists.mp hstat
    rw [hcode]
    dsimp only
    rw [hfind]

theorem confirmStart_cstate (c : Client) (env : Env) :
    (confirmStart c env).cstate = .Confirm := rfl

theorem solicitStart_cstate (c : Client) (env : Env) :
    (solicitStart c env).cstate = .Solicit := rfl

theorem solicitStart_saved (c : Client) (env : Env) :
    (solicitStart c env).saved = none := rfl

theorem solicitStart_ourIP (c : Client) (env : Env) :
    (solicitStart c env).ourIP = c.ourIP := rfl

theorem removeAddress_ourIP (c : Client) :
    (removeAddress c).ourIP = 0 := by
  unfold removeAddress
  split_ifs with h
  · exact h
  · rfl

theorem sameNetwork_congr (c c' : Client) (env : Env)
    (h : c.lease = c'.lease) :
    DHCPv6ClientLeaseOnSameNetwork c env =
      DHCPv6ClientLeaseOnSameNetwork c' env := by
  unfold DHCPv6ClientLeaseOnSameNetwork
  rw [h]

/-- C8: starting with allocate_address = true enters Confirm exactly when
the stored lease is still valid now and on the same network (wired:
always; wireless: both SSIDs present and equal); otherwise the assigned
address is removed, the saved packet cleared, and Solicit entered. -/
theorem C8_start_stateful (c : Client) (priv : Bool) (env : Env) :
    ((DHCPv6ClientStart c true priv env).cstate = .Confirm ↔
      ((DHCPv6ClientLeaseStillValid c env.now).2 = true ∧
        DHCPv6ClientLeaseOnSameNetwork c env = true)) ∧
    ((DHCPv6ClientStart c true priv env).cstate ≠ .Confirm →
      ((DHCPv6ClientStart c true priv env).cstate = .Solicit ∧
       (DHCPv6ClientStart c true priv env).ourIP = 0 ∧
       (DHCPv6ClientStart c true priv env).saved = none)) := by
  have hc2 :
      (DHCPv6ClientLeaseStillValid
        { c with privateAddress := priv, mode := ClientMode.Stateful }
        env.now).2 = (DHCPv6ClientLeaseStillValid c env.now).2 :=
    leaseStillValid_congr _ _ _ rfl
  have hsn2 :
      DHCPv6ClientLeaseOnSameNetwork
        { c with privateAddress := priv, mode := ClientMode.Stateful } env =
      DHCPv6ClientLeaseOnSameNetwork c env :=
    sameNetwork_congr _ _ _ rfl
  by_cases hok : (DHCPv6ClientLeaseStillValid c env.now).2 = true
  · have hfst := leaseStillValid_true_fst
      { c with privateAddress := priv, mode := ClientMode.Stateful }
      env.now (by rw [hc2]; exact hok)
    by_cases hsn : DHCPv6ClientLeaseOnSameNetwork c env = true
    · have hres : DHCPv6ClientStart c true priv env =
          confirmStart (DHCPv6ClientLeaseStillValid
            { c with privateAddress := priv, mode := ClientMode.Stateful }
            env.now).1 env := by
        unfold DHCPv6ClientStart
        rw [if_pos rfl]
        dsimp only
        rw [if_pos]
        constructor
        · rw [hc2]; exact hok
        · rw [hfst, hsn2]; exact hsn
      rw [hres, confirmStart_cstate]
      simp [hok, hsn]
    · have hres : DHCPv6ClientStart c true priv env =
          solicitStart (clearPacket (removeAddress
            (DHCPv6ClientLeaseStillValid
              { c with privateAddress := priv, mode := ClientMode.Stateful }
              env.now).1)) env := by
        unfold DHCPv6ClientStart
        rw [if_pos rfl]
        dsimp only
        rw [if_neg]
        intro hcon
        have h2 := hcon.2
        rw [hfst, hsn2] at h2
        exact hsn h2
      rw [hres]
      refine ⟨?_, ?_⟩
      · rw [solicitStart_cstate]
        simp [hsn]
      · intro _
        refine ⟨solicitStart_cstate _ _, ?_, solicitStart_saved _ _⟩
        rw [solicitStart_ourIP]
        simp [clearPacket, clearLease, removeAddress_ourIP]
  · have hres : DHCPv6ClientStart c true priv env =
        solicitStart (clearPacket (removeAddress
          (DHCPv6ClientLeaseStillValid
            { c with privateAddress := priv, mode := ClientMode.Stateful }
            env.now).1)) env := by
      unfold DHCPv6ClientStart
      rw [if_pos rfl]
      dsimp only
      rw [if_neg]
      intro hcon
      have h1 := hcon.1
      rw [hc2] at h1
      exact hok h1
    rw [hres]
    refine ⟨?_, ?_⟩
    · rw [solicitStart_cstate]
      simp [hok]
    · intro _
      refine ⟨solicitStart_cstate _ _, ?_, solicitStart_saved _ _⟩
      rw [solicitStart_ourIP]
      simp [clearPacket, clearLease, removeAddress_ourIP]

theorem solicitStart_tryCount (c : Client) (env : Env) :
    (solicitStart c env).tryCount = 0 := rfl

theorem castU32_zero : castU32 0 = 0 := rfl

theorem scanAddrList_bound (c : Client) (env : Env)
    (hstart : ¬ env.now < c.lease.start) (hst : c.cstate = .Bound) :
    ∀ l : List AddrEntry, (∀ e ∈ l, e.duplicated = false) →
      (scanAddrList c env l).cstate = .Bound ∧
      (scanAddrList c env l).saved = c.saved := by
  intro l
  induction l with
  | nil => intro _; exact ⟨hst, rfl⟩
  | cons e rest ih =>
    intro hdup
    have hd : e.duplicated = false := hdup e (List.mem_cons_self e rest)
    have htail : ∀ x ∈ rest, x.duplicated = false :=
      fun x hx => hdup x (List.mem_cons_of_mem e hx)
    simp only [scanAddrList]
    by_cases he : e.addr = c.ourIP
    · rw [if_pos he]
      by_cases ht : e.tentative = true
      · simp [hd, ht, hst]
      · rw [if_neg (by simp [hd]), if_neg ht]
        split_ifs with hv hlt <;>
          first
            | exact absurd hlt hstart
            | exact ⟨hst, rfl⟩
    · rw [if_neg he]
      exact ih htail

theorem handleAddressChanged_bound (c : Client) (env : Env)
    (l : List AddrEntry)
    (hdup : ∀ e ∈ l, e.duplicated = false)
    (hstart : ¬ env.now < c.lease.start) (hst : c.cstate = .Bound) :
    (handleAddressChanged c env l).cstate = .Bound ∧
    (handleAddressChanged c env l).saved = c.saved := by
  unfold handleAddressChanged
  split_ifs with h1 h2
  · exact ⟨hst, rfl⟩
  · exact ⟨hst, rfl⟩
  · exact scanAddrList_bound c env hstart hst l hdup

theorem boundStart_bound (c : Client) (env : Env) (b : IA_NA × IAADDR)
    (hb : c.iaBinding = some b)
    (hstart : c.lease.start = env.now)
    (hvl : c.lease.validLifetime ≠ 0)
    (hdup : ∀ e ∈ env.addrList, e.duplicated = false) :
    (boundStart c env).cstate = .Bound ∧
    (boundStart c env).saved = c.saved := by
  unfold boundStart
  rw [hb]
  dsimp only [cancelPendingEvents]
  rw [hstart, sub_self]
  simp only [castU32_zero, ite_self]
  rw [if_neg (fun h => absurd h.2 (lt_irrefl _)),
    if_neg (fun h => hvl (Nat.le_zero.mp h.2))]
  split_ifs <;>
    first
      | exact ⟨rfl, rfl⟩
      | exact handleAddressChanged_bound _ env env.addrList hdup
          (lt_irrefl _) rfl

theorem savePacketLease_valid_ne_zero (t1 t2 p v : Nat) (hv : v ≠ 0) :
    (DHCPv6ClientSavePacketLease t1 t2 p v).2.2.2 ≠ 0 := by
  unfold DHCPv6ClientSavePacketLease INFINITE_LEASE
  dsimp only
  split_ifs <;> simp_all

/-- C5: a matching REPLY in Request is handled with this precedence: a
top-level NoAddrsAvail status is ignored (nothing changes); otherwise an
IA_NA-level NotOnLink restarts Solicit; otherwise without a usable
binding the reply is dropped (nothing changes); otherwise the packet is
saved and the client enters Bound (provided the kernel does not
immediately report the address duplicated). -/
theorem C5_request_reply (c : Client) (m : Msg) (env : Env)
    (code : StatusCode)
    (_hst : c.cstate = .Request)
    (hm : msgMatches c m = true)
    (hcode : m.topStatus = some code)
    (hdup : ∀ e ∈ env.addrList, e.duplicated = false) :
    (code = .NoAddrsAvail → requestData c m env = c) ∧
    (code ≠ .NoAddrsAvail →
      (get_ia_na_addr_code m).2 = .NotOnLink →
      ((requestData c m env).cstate = .Solicit ∧
       (requestData c m env).saved = none ∧
       (requestData c m env).tryCount = 0)) ∧
    (code ≠ .NoAddrsAvail → (get_ia_na_addr_code m).2 ≠ .NotOnLink →
      (get_ia_na_addr_code m).1 = none → requestData c m env = c) ∧
    (code ≠ .NoAddrsAvail → (get_ia_na_addr_code m).2 ≠ .NotOnLink →
      ∀ ia a, (get_ia_na_addr_code m).1 = some (ia, a) →
        ((requestData c m env).saved = some m ∧
         (requestData c m env).cstate = .Bound)) := by
  refine ⟨?_, ?_, ?_, ?_⟩
  · intro h
    simp [requestData, hm, hcode, h]
  · intro hna hnol
    have hres : requestData c m env = solicitStart c env := by
      simp [requestData, hm, hcode, hna, hnol]
    rw [hres]
    exact ⟨solicitStart_cstate _ _, solicitStart_saved _ _,
      solicitStart_tryCount _ _⟩
  · intro hna hnol hnone
    simp [requestData, hm, hcode, hna, hnol, hnone]
  · intro hna hnol ia a hsome
    have hia : get_ia_na_addr m = some (ia, a) := hsome
    have hres : requestData c m env =
        boundStart (DHCPv6ClientSavePacket c m env) env := by
      simp [requestData, hm, hcode, hna, hnol, hsome]
    have husable := findUsableIAADDR_some ia.iaaddrs a
      (get_ia_na_addr_some m ia a hia).2.2.2.2.2
    have hlease := savePacket_lease c m env ia a hia
    have hvl0 : (DHCPv6ClientSavePacket c m env).lease.validLifetime
        ≠ 0 := by
      rw [hlease]
      exact savePacketLease_valid_ne_zero ia.t1 ia.t2
        a.preferredLifetime a.validLifetime husable.2.1
    have hst0 : (DHCPv6ClientSavePacket c m env).lease.start
        = env.now := by
      rw [hlease]
    have hbound := boundStart_bound (DHCPv6ClientSavePacket c m env) env
      (ia, a) (by rw [savePacket_binding]; exact hia) hst0 hvl0 hdup
    rw [hres]
    refine ⟨?_, hbound.1⟩
    rw [hbound.2, savePacket_saved]

/-- A REPLY with the usable IA_NA of `iaGood` and matching ids. -/
def msgReplyGood : Msg :=
  { msgAdvGood with msgType := msgREPLY }

/-- A client waiting in Request. -/
def clientReq : Client :=
  { clientBase with cstate := .Request }

/-- C5 witness: the theorem applied at a concrete Request client and a
successful REPLY with a usable binding. -/
theorem C5_request_reply_witness :
    (StatusCode.Success = .NoAddrsAvail →
      requestData clientReq msgReplyGood envBase = clientReq) ∧
    (StatusCode.Success ≠ .NoAddrsAvail →
      (get_ia_na_addr_code msgReplyGood).2 = .NotOnLink →
      ((requestData clientReq msgReplyGood envBase).cstate = .Solicit ∧
       (requestData clientReq msgReplyGood envBase).saved = none ∧
       (requestData clientReq msgReplyGood envBase).tryCount = 0)) ∧
    (StatusCode.Success ≠ .NoAddrsAvail →
      (get_ia_na_addr_code msgReplyGood).2 ≠ .NotOnLink →
      (get_ia_na_addr_code msgReplyGood).1 = none →
      requestData clientReq msgReplyGood envBase = clientReq) ∧
    (StatusCode.Success ≠ .NoAddrsAvail →
      (get_ia_na_addr_code msgReplyGood).2 ≠ .NotOnLink →
      ∀ ia a, (get_ia_na_addr_code msgReplyGood).1 = some (ia, a) →
        ((requestData clientReq msgReplyGood envBase).saved
            = some msgReplyGood ∧
         (requestData clientReq msgReplyGood envBase).cstate = .Bound)) :=
  C5_request_reply clientReq msgReplyGood envBase .Success (by decide)
    (by decide) (by decide) (by decide)

theorem renewRebindTimeout_cstate (c : Client) (env : Env)
    (h : (DHCPv6ClientLeaseStillValid c env.now).2 = true) :
    (renewRebindTimeout c env).cstate =
      if castU32 (env.now - c.lease.start) < c.lease.t2 then c.cstate
      else ClientState.Rebind := by
  unfold renewRebindTimeout
  dsimp only
  rw [if_neg (by simp [h]), leaseStillValid_true_fst c env.now h]
  split_ifs with h1 h2 h3 h4 <;>
    first
      | rfl
      | simpa using h3

theorem renewRebindStart_cstate (c : Client) (env : Env)
    (h : (DHCPv6ClientLeaseStillValid c env.now).2 = true) :
    (renewRebindStart c env).cstate =
      if castU32 (env.now - c.lease.start) < c.lease.t2
      then ClientState.Renew else ClientState.Rebind := by
  unfold renewRebindStart
  dsimp only [cancelPendingEvents]
  rw [renewRebindTimeout_cstate]
  have hcast : ∀ x : Client, x.lease = c.lease →
      (DHCPv6ClientLeaseStillValid x env.now).2 = true :=
    fun x hx => (leaseStillValid_congr x c env.now hx).trans h
  exact hcast _ rfl

theorem handleWake_normalPath (c : Client) (env : Env)
    (hlink : linkIsInactive env = false)
    (hnet : ¬(env.wireless = true ∧
      env.wakeInfo = WakeInfo.NetworkChanged))
    (hwired : ¬(env.wireless = false ∧ env.wakeOnSameNetwork = false))
    (hlease : (DHCPv6ClientLeaseStillValid c env.now).2 = true)
    (hbrr : S_dhcp_state_is_bound_renew_or_rebind c.cstate = true)
    (hbssid : env.wakeInfo ≠ WakeInfo.BSSIDChanged) :
    DHCPv6ClientHandleWake c env =
      (if c.lease.validLifetime = INFINITE_LEASE then c
       else if S_time_in_future env.now c.renewRebindTime env.wakeSkew
       then { c with timer := some c.renewRebindTime }
       else renewRebindStart c env) := by
  unfold DHCPv6ClientHandleWake
  dsimp only
  rw [if_neg]
  · rw [if_neg (by simp [hlease]), leaseStillValid_true_fst c env.now
      hlease]
    rw [if_neg]
    rintro (h | h)
    · rw [hbrr] at h; cases h
    · exact hbssid h
  · rintro (h | h | h)
    · rw [hlink] at h; cases h
    · exact hnet h
    · exact hwired h

/-- C9 (amended): on wake with the link active, the network unchanged,
the lease still valid, the state in Bound/Renew/Rebind, the BSSID
unchanged: with an INFINITE valid lifetime nothing changes; with a finite
one, if the scheduled renew/rebind time is at least G_wake_skew_secs in
the future the client only re-arms its timer to fire at that same
absolute time, and otherwise it immediately re-enters the renew/rebind
phase - Renew when the elapsed time since lease start is below T2, and
Rebind otherwise. -/
theorem C9_wake (c : Client) (env : Env)
    (hlink : linkIsInactive env = false)
    (hnet : ¬(env.wireless = true ∧
      env.wakeInfo = WakeInfo.NetworkChanged))
    (hwired : ¬(env.wireless = false ∧ env.wakeOnSameNetwork = false))
    (hlease : (DHCPv6ClientLeaseStillValid c env.now).2 = true)
    (hbrr : S_dhcp_state_is_bound_renew_or_rebind c.cstate = true)
    (hbssid : env.wakeInfo ≠ WakeInfo.BSSIDChanged) :
    (c.lease.validLifetime = INFINITE_LEASE →
      DHCPv6ClientHandleWake c env = c) ∧
    (c.lease.validLifetime ≠ INFINITE_LEASE →
      ((S_time_in_future env.now c.renewRebindTime env.wakeSkew = true →
        DHCPv6ClientHandleWake c env =
          { c with timer := some c.renewRebindTime }) ∧
       (S_time_in_future env.now c.renewRebindTime env.wakeSkew = false →
        (DHCPv6ClientHandleWake c env).cstate =
          (if castU32 (env.now - c.lease.start) < c.lease.t2
           then ClientState.Renew else ClientState.Rebind)))) := by
  rw [handleWake_normalPath c env hlink hnet hwired hlease hbrr hbssid]
  constructor
  · intro hINF
    rw [if_pos hINF]
  · intro hfin
    rw [if_neg hfin]
    constructor
    · intro hfut
      rw [if_pos hfut]
    · intro hfut
      rw [if_neg (by simp [hfut])]
      exact renewRebindStart_cstate c env hlease

/-- A Rebind-state client past T2 whose renew/rebind timer is close. -/
def clientWake : Client :=
  { clientBase with
      cstate := .Rebind,
      lease := { start := 0, t1 := 50, t2 := 80, validLifetime := 100,
                 preferredLifetime := 100, valid := true, ssid := none },
      renewRebindTime := 90 }

/-- The wake environment for `clientWake`: wired, link active, wake on
the same network, now = 85, skew = 30. -/
def envWake : Env :=
  { envBase with now := 85 }

/-- C9 counterexample: at wake with the link active, same network, a
still-valid finite lease, state Rebind, BSSID unchanged, and the
scheduled renew/rebind time (90) less than G_wake_skew_secs (30) in the
future of now (85), the claim says the client transitions immediately to
Renew; the code re-enters the renew/rebind phase and, because the
elapsed time (85) is already past T2 (80), lands in Rebind. -/
theorem C9_counterexample :
    linkIsInactive envWake = false ∧
    envWake.wireless = false ∧
    envWake.wakeOnSameNetwork = true ∧
    (DHCPv6ClientLeaseStillValid clientWake envWake.now).2 = true ∧
    S_dhcp_state_is_bound_renew_or_rebind clientWake.cstate = true ∧
    envWake.wakeInfo ≠ WakeInfo.BSSIDChanged ∧
    clientWake.lease.validLifetime ≠ INFINITE_LEASE ∧
    S_time_in_future envWake.now clientWake.renewRebindTime
      envWake.wakeSkew = false ∧
    (DHCPv6ClientHandleWake clientWake envWake).cstate =
      ClientState.Rebind ∧
    ClientState.Rebind ≠ ClientState.Renew := by
  have hlease :
      (DHCPv6ClientLeaseStillValid clientWake envWake.now).2 = true := by
    rw [leaseStillValid_snd]
    norm_num [clientWake, clientBase, envWake, envBase, INFINITE_LEASE]
  have hfut : S_time_in_future envWake.now clientWake.renewRebindTime
      envWake.wakeSkew = false := by
    simp only [S_time_in_future, clientWake, clientBase, envWake, envBase]
    norm_num
  have hsub : envWake.now - clientWake.lease.start = (85 : ℚ) := by
    norm_num [clientWake, clientBase, envWake, envBase]
  refine ⟨by decide, by decide, by decide, hlease, by decide, by decide,
    by decide, hfut, ?_, by decide⟩
  rw [handleWake_normalPath clientWake envWake (by decide) (by decide)
    (by decide) hlease (by decide) (by decide)]
  rw [if_neg (by decide), if_neg (by simp [hfut])]
  rw [renewRebindStart_cstate clientWake envWake hlease, hsub]
  decide

/-- A Bound-state client whose renew/rebind timer is far in the future. -/
def clientWakeFar : Client :=
  { clientWake with cstate := .Bound, renewRebindTime := 200 }

/-- C9 witness: the amended theorem applied at a client whose scheduled
renew time (200) is at least the skew (30) past now (85): the timer is
re-armed at the same absolute time and the state does not change. -/
theorem C9_wake_witness :
    (clientWakeFar.lease.validLifetime = INFINITE_LEASE →
      DHCPv6ClientHandleWake clientWakeFar envWake = clientWakeFar) ∧
    (clientWakeFar.lease.validLifetime ≠ INFINITE_LEASE →
      ((S_time_in_future envWake.now clientWakeFar.renewRebindTime
          envWake.wakeSkew = true →
        DHCPv6ClientHandleWake clientWakeFar envWake =
          { clientWakeFar with
              timer := some clientWakeFar.renewRebindTime }) ∧
       (S_time_in_future envWake.now clientWakeFar.renewRebindTime
          envWake.wakeSkew = false →
        (DHCPv6ClientHandleWake clientWakeFar envWake).cstate =
          (if castU32 (envWake.now - clientWakeFar.lease.start)
              < clientWakeFar.lease.t2
           then ClientState.Renew else ClientState.Rebind)))) :=
  C9_wake clientWakeFar envWake (by decide) (by decide) (by decide)
    (by rw [leaseStillValid_snd]
        norm_num [clientWakeFar, clientWake, clientBase, envWake, envBase,
          INFINITE_LEASE])
    (by decide) (by decide)

end DHCPv6
